import Mathlib

/-!
Verification of the K-Scope entry-store and launch-dispatch subsystem.

The store (`db.ts`) is a SQLite wrapper with a module-level connection
handle; we model the handle as a Boolean flag and the database file as an
explicit record holding the `entries` table (legacy- or current-shaped)
and the transient `entries_old` table used during migration.  Fallible
operations return `Except String`.  The dispatcher (`logic.ts`) shells
out through `Command.create("cmd", args).execute()`; we model the OS by
an oracle `exec : List String → Except String Unit` and record every
command issued, together with the returned Boolean and whether the
deferred window-hide was scheduled.
-/

/-- Launch types supported by the app (`LaunchType` in db.ts). -/
inductive LaunchType
  | steam
  | exe
  | url
  | bat
deriving DecidableEq

/-- The runtime string stored in the `launch_type` column for each variant. -/
def LaunchType.toStr : LaunchType → String
  | .steam => "steam"
  | .exe => "exe"
  | .url => "url"
  | .bat => "bat"

/-- The `type` column: `'game' | 'app'`, checked by the schema. -/
inductive EntryType
  | game
  | app
deriving DecidableEq

/-- A row of the current-shaped `entries` table.  `deprecated` is the raw
SQLite INTEGER; `launch_type` is the raw TEXT of the column (the CHECK
constraint restricts what the store writes, but the dispatcher receives
it as a plain string at runtime). -/
structure Row where
  id : Nat
  type : EntryType
  name : String
  launch_type : String
  launch_data : String
  launch_args : String
  image_data : String
  deprecated : Nat
  created_at : Nat
deriving DecidableEq

/-- The `Entry` interface returned to callers: identical to a row except
that `deprecated` has been passed through `Boolean(...)`. -/
structure Entry where
  id : Nat
  type : EntryType
  name : String
  launch_type : String
  launch_data : String
  launch_args : String
  image_data : String
  deprecated : Bool
  created_at : Nat
deriving DecidableEq

/-- The `{...row, deprecated: Boolean(row.deprecated)}` conversion applied
by `getEntries` and `addEntry`. -/
def rowToEntry (r : Row) : Entry :=
  { id := r.id, type := r.type, name := r.name, launch_type := r.launch_type,
    launch_data := r.launch_data, launch_args := r.launch_args,
    image_data := r.image_data, deprecated := r.deprecated != 0,
    created_at := r.created_at }

/-- A row of the legacy-shaped table: a single `bat_path` column instead of
the `launch_type`/`launch_data`/`launch_args` triple. -/
structure LegacyRow where
  id : Nat
  type : EntryType
  name : String
  bat_path : String
  image_data : String
  deprecated : Nat
  created_at : Nat
deriving DecidableEq

/-- One row of the migration copy
`SELECT id, type, name, 'bat', bat_path, '', image_data, deprecated, created_at`. -/
def migrateRow (r : LegacyRow) : Row :=
  { id := r.id, type := r.type, name := r.name, launch_type := "bat",
    launch_data := r.bat_path, launch_args := "", image_data := r.image_data,
    deprecated := r.deprecated, created_at := r.created_at }

/-- The `entries` table is either legacy-shaped (has `bat_path`, lacks
`launch_type`) or current-shaped; a current table carries the
AUTOINCREMENT counter assigning the next fresh id. -/
inductive EntriesTable
  | legacy (rows : List LegacyRow)
  | current (rows : List Row) (nextId : Nat)
deriving DecidableEq

/-- The database file: the `entries` table (if it exists) and the
`entries_old` table left behind by a rename (if it exists). -/
structure DbFile where
  entries : Option EntriesTable
  entriesOld : Option (List LegacyRow)
deriving DecidableEq

/-- Module state of db.ts: `conn` is whether the module-level `db` handle
is non-null, `file` is the backing SQLite file. -/
structure DbState where
  conn : Bool
  file : DbFile
deriving DecidableEq

/-- Largest id present in a legacy table (0 when empty): after the
migration copies rows with explicit ids, SQLite's AUTOINCREMENT sequence
continues from here. -/
def maxId (rows : List LegacyRow) : Nat :=
  rows.foldl (fun m r => max m r.id) 0

/-- `initDatabase`: loads the database (setting the handle), then
* legacy shape detected (`bat_path` present, `launch_type` absent):
  renames `entries` to `entries_old`, creates the current schema, copies
  every legacy row with `launch_type = 'bat'` and `bat_path` as
  `launch_data`, then drops `entries_old`;
* no table at all: creates the current schema fresh;
* current shape already present: leaves the file untouched. -/
def initDatabase (s : DbState) : DbState :=
  match s.file.entries with
  | some (EntriesTable.legacy rows) =>
      { conn := true,
        file := { entries := some (EntriesTable.current (rows.map migrateRow) (maxId rows + 1)),
                  entriesOld := none } }
  | none =>
      { conn := true,
        file := { s.file with entries := some (EntriesTable.current [] 1) } }
  | some (EntriesTable.current _ _) =>
      { conn := true, file := s.file }

/-- Message of the error thrown by every store operation when the
module-level handle is still null. -/
def notInitMsg : String := "Database not initialized"

/-- SQL-level failure when the `entries` table is missing (a state the
TypeScript can only reach if `initDatabase` was never run, since
`initDatabase` is the sole assignment to the handle). -/
def noTableMsg : String := "no such table: entries"

/-- JS `TypeError` from reading `.deprecated` off `entries[0]` when the
post-insert SELECT finds nothing. -/
def selectEmptyMsg : String := "undefined has no properties"

/-- Comparator for `ORDER BY created_at DESC`. -/
def createdDesc (a b : Row) : Bool :=
  b.created_at ≤ a.created_at

/-- `getEntries(type)`: throws if the handle is null, else
`SELECT * FROM entries WHERE type = ? ORDER BY created_at DESC` mapped
through the `Boolean(deprecated)` conversion. -/
def getEntries (s : DbState) (t : EntryType) : Except String (List Entry) :=
  if s.conn then
    match s.file.entries with
    | some (EntriesTable.current rows _) =>
        Except.ok ((List.mergeSort (rows.filter (fun r => decide (r.type = t))) createdDesc).map rowToEntry)
    | _ => Except.error noTableMsg
  else Except.error notInitMsg

/-- `addEntry`: throws if the handle is null; INSERTs a row whose id is
the AUTOINCREMENT counter, `deprecated` the column default 0 and
`created_at` the `unixepoch()` default (passed here as `now`); then
re-SELECTs the row by `lastInsertId` and returns it converted. -/
def addEntry (s : DbState) (now : Nat) (t : EntryType) (name : String)
    (launchType : LaunchType) (launchData launchArgs imageData : String) :
    Except String (Entry × DbState) :=
  if s.conn then
    match s.file.entries with
    | some (EntriesTable.current rows n) =>
        let row : Row :=
          { id := n, type := t, name := name, launch_type := launchType.toStr,
            launch_data := launchData, launch_args := launchArgs,
            image_data := imageData, deprecated := 0, created_at := now }
        let rows2 := rows ++ [row]
        match rows2.filter (fun r => decide (r.id = n)) with
        | [] => Except.error selectEmptyMsg
        | e :: _ =>
            Except.ok (rowToEntry e,
              { conn := s.conn,
                file := { s.file with entries := some (EntriesTable.current rows2 (n + 1)) } })
    | _ => Except.error noTableMsg
  else Except.error notInitMsg

/-- `deleteEntry(id)`: throws if the handle is null, else
`DELETE FROM entries WHERE id = ?`. -/
def deleteEntry (s : DbState) (id : Nat) : Except String DbState :=
  if s.conn then
    match s.file.entries with
    | some (EntriesTable.current rows n) =>
        Except.ok
          { conn := s.conn,
            file := { s.file with
                      entries := some (EntriesTable.current (rows.filter (fun r => decide (r.id ≠ id))) n) } }
    | _ => Except.error noTableMsg
  else Except.error notInitMsg

/-- SQLite's NOT on an INTEGER operand: 1 if the operand is 0, else 0. -/
def sqlNot (x : Nat) : Nat :=
  if x = 0 then 1 else 0

/-- `toggleDeprecated(id)`: throws if the handle is null, else
`UPDATE entries SET deprecated = NOT deprecated WHERE id = ?`. -/
def toggleDeprecated (s : DbState) (id : Nat) : Except String DbState :=
  if s.conn then
    match s.file.entries with
    | some (EntriesTable.current rows n) =>
        Except.ok
          { conn := s.conn,
            file := { s.file with
                      entries := some (EntriesTable.current
                        (rows.map (fun r =>
                          if r.id = id then { r with deprecated := sqlNot r.deprecated } else r)) n) } }
    | _ => Except.error noTableMsg
  else Except.error notInitMsg

/-- `updateEntry`: throws if the handle is null, else overwrites the five
mutable columns of the row matching `id` (no row matched means the UPDATE
affects nothing and no error is raised). -/
def updateEntry (s : DbState) (id : Nat) (name : String) (launchType : LaunchType)
    (launchData launchArgs imageData : String) : Except String DbState :=
  if s.conn then
    match s.file.entries with
    | some (EntriesTable.current rows n) =>
        Except.ok
          { conn := s.conn,
            file := { s.file with
                      entries := some (EntriesTable.current
                        (rows.map (fun r =>
                          if r.id = id then
                            { r with name := name, launch_type := launchType.toStr,
                                     launch_data := launchData, launch_args := launchArgs,
                                     image_data := imageData }
                          else r)) n) } }
    | _ => Except.error noTableMsg
  else Except.error notInitMsg

/-!
Launch dispatcher (`logic.ts`).
-/

/-- `parseArgs` scan loop: split on the space character outside quotes,
toggle the `inQuotes` state on each double-quote, append every other
character to the current token; empty tokens are never pushed. -/
def parseArgsGo : List Char → String → Bool → List String
  | [], current, _ =>
      if current = "" then [] else [current]
  | c :: rest, current, inQuotes =>
      if c = '"' then
        parseArgsGo rest current (!inQuotes)
      else if c = ' ' ∧ inQuotes = false then
        if current = "" then parseArgsGo rest current inQuotes
        else current :: parseArgsGo rest "" inQuotes
      else
        parseArgsGo rest (current.push c) inQuotes

/-- `parseArgs(argsString)` from logic.ts. -/
def parseArgs (argsString : String) : List String :=
  parseArgsGo argsString.data "" false

/-- The argument list computed inside `launchExe`:
`args.trim() ? parseArgs(args) : []`.  The trimmed string is the empty
(falsy) string exactly when every character of `args` is whitespace,
which is how the test is embedded here. -/
def exeArgList (args : String) : List String :=
  if args.data.all Char.isWhitespace then [] else parseArgs args

/-- Arguments of the `cmd` invocation issued by `launchSteam`. -/
def steamCmdArgs (appId : String) : List String :=
  ["/c", "start", "steam://rungameid/" ++ appId]

/-- Arguments of the `cmd` invocation issued by `launchExe` (the empty
string is the window title required by `start` for quoted paths). -/
def exeCmdArgs (exePath : String) (args : String) : List String :=
  ["/c", "start", "", exePath] ++ exeArgList args

/-- Arguments of the `cmd` invocation issued by `launchUrl`. -/
def urlCmdArgs (url : String) : List String :=
  ["/c", "start", url]

/-- Arguments of the `cmd` invocation issued by `launchBat`. -/
def batCmdArgs (batPath : String) : List String :=
  ["/c", batPath]

/-- Observable outcome of one `launchEntry` call: the returned Boolean,
the `cmd` invocations issued (argument lists passed to
`Command.create("cmd", ...)`), and whether the deferred
`toggleWindow(true)` hide was scheduled. -/
structure LaunchOutcome where
  ok : Bool
  cmds : List (List String)
  hideScheduled : Bool
deriving DecidableEq

/-- One awaited `command.execute()` inside the `try` block: on success the
code falls through to the `setTimeout` hide and `return true`; on a
rejection the `catch` logs and returns false, so the hide is never
scheduled. -/
def runCommand (exec : List String → Except String Unit) (args : List String) : LaunchOutcome :=
  match exec args with
  | Except.ok _ => { ok := true, cmds := [args], hideScheduled := true }
  | Except.error _ => { ok := false, cmds := [args], hideScheduled := false }

/-- `launchEntry`: the `switch (entry.launch_type)` dispatch.  A JS switch
over string cases is sequential strict equality, embedded as an if-chain;
the `default` branch logs and returns false before reaching the
`setTimeout`, issuing no command. -/
def launchEntry (exec : List String → Except String Unit) (e : Entry) : LaunchOutcome :=
  if e.launch_type = "steam" then runCommand exec (steamCmdArgs e.launch_data)
  else if e.launch_type = "exe" then runCommand exec (exeCmdArgs e.launch_data e.launch_args)
  else if e.launch_type = "url" then runCommand exec (urlCmdArgs e.launch_data)
  else if e.launch_type = "bat" then runCommand exec (batCmdArgs e.launch_data)
  else { ok := false, cmds := [], hideScheduled := false }

/-- The single command an entry dispatches to, when its `launch_type` is
one of the four handled cases. -/
def dispatchCmd (e : Entry) : Option (List String) :=
  if e.launch_type = "steam" then some (steamCmdArgs e.launch_data)
  else if e.launch_type = "exe" then some (exeCmdArgs e.launch_data e.launch_args)
  else if e.launch_type = "url" then some (urlCmdArgs e.launch_data)
  else if e.launch_type = "bat" then some (batCmdArgs e.launch_data)
  else none

/-!
Specification-side definitions and sample data used by the theorems.
-/

/-- Final step of the claim-side parsers: flush the pending token if it is
nonempty. -/
def finishTok : (List String × String × Bool) → List String
  | (done, cur, _) => if cur = "" then done else done ++ [cur]

/-- One scan step of the claim-side parser with the separator corrected to
the space character: toggle the quote state on a double-quote, flush the
token on a space outside quotes, otherwise extend the token. -/
def parseArgsStepSpace : (List String × String × Bool) → Char → (List String × String × Bool)
  | (done, cur, inQ), c =>
      if c = '"' then (done, cur, !inQ)
      else if c = ' ' ∧ inQ = false then
        ((if cur = "" then done else done ++ [cur]), "", inQ)
      else (done, cur.push c, inQ)

/-- Claim-side parser splitting on the space character outside quotes. -/
def parseArgsSpaceSpec (s : String) : List String :=
  finishTok (s.data.foldl parseArgsStepSpace ([], "", false))

/-- One scan step of a parser written from the claim's literal words: split
on whitespace outside double quotes, toggling an inside-quotes state per
quote character seen. -/
def parseArgsStepWS : (List String × String × Bool) → Char → (List String × String × Bool)
  | (done, cur, inQ), c =>
      if c = '"' then (done, cur, !inQ)
      else if c.isWhitespace ∧ inQ = false then
        ((if cur = "" then done else done ++ [cur]), "", inQ)
      else (done, cur.push c, inQ)

/-- Parser following the claim's literal words (split on whitespace outside
double quotes). -/
def parseArgsWhitespace (s : String) : List String :=
  finishTok (s.data.foldl parseArgsStepWS ([], "", false))

/-- An OS oracle that accepts every start request. -/
def execOk : List String → Except String Unit :=
  fun _ => Except.ok ()

/-- The error message of a declined start request. -/
def osErrMsg : String := "The system cannot find the file specified."

/-- An OS oracle that declines every start request. -/
def execFail : List String → Except String Unit :=
  fun _ => Except.error osErrMsg

/-- A sample legacy-shaped row. -/
def sampleLegacy : LegacyRow :=
  { id := 7, type := EntryType.game, name := "Monster Hunter World",
    bat_path := "/scripts/launch_mhw.bat", image_data := "img",
    deprecated := 0, created_at := 42 }

/-- A sample current-shaped row. -/
def sampleRow : Row :=
  { id := 1, type := EntryType.game, name := "Monster Hunter World",
    launch_type := "bat", launch_data := "/scripts/launch_mhw.bat",
    launch_args := "", image_data := "img", deprecated := 0, created_at := 10 }

/-- A sample `steam` entry, as in the spec's scenario. -/
def steamEntry : Entry :=
  { id := 1, type := EntryType.game, name := "Elden Ring", launch_type := "steam",
    launch_data := "814380", launch_args := "--ignored", image_data := "img",
    deprecated := false, created_at := 0 }

/-- An entry whose `launch_type` is none of the four handled cases. -/
def badEntry : Entry :=
  { steamEntry with launch_type := "gamepass" }

/-!
Helper lemmas.
-/

/-- The scan loop of `parseArgs` agrees with the claim-side left fold, for
any starting accumulator. -/
theorem parseArgsGo_eq_foldl (cs : List Char) :
    ∀ (done : List String) (cur : String) (inQ : Bool),
      finishTok (cs.foldl parseArgsStepSpace (done, cur, inQ)) = done ++ parseArgsGo cs cur inQ := by
  induction cs with
  | nil =>
      intro done cur inQ
      by_cases h : cur = "" <;> simp [parseArgsGo, finishTok, h]
  | cons c rest ih =>
      intro done cur inQ
      simp only [List.foldl_cons, parseArgsGo, parseArgsStepSpace]
      by_cases hq : c = '"'
      · simp [hq, ih]
      · by_cases hs : c = ' ' ∧ inQ = false
        · by_cases hc : cur = ""
          · simp [hq, hs, hc, ih]
          · simp [hq, hs, hc, ih, List.append_assoc]
        · simp [hq, hs, ih]

/-- What one awaited `command.execute()` yields: the command is recorded,
the call succeeds exactly when the OS accepted the request, and the
deferred hide is scheduled exactly on success. -/
theorem runCommand_spec (exec : List String → Except String Unit) (args : List String) :
    (runCommand exec args).cmds = [args]
    ∧ ((runCommand exec args).ok = true ↔ exec args = Except.ok ())
    ∧ (runCommand exec args).hideScheduled = (runCommand exec args).ok := by
  unfold runCommand
  cases hx : exec args with
  | ok u => cases u; simp
  | error m => simp

/-!
Claim theorems.
-/

/-- C1: for every legacy-shaped table with N rows, `initDatabase` leaves a
current-shaped table with exactly N rows, each keeping its id, type, name,
image_data, deprecated and created_at, with `launch_type = "bat"` and
`launch_data` equal to the legacy `bat_path`, and the renamed legacy table
is dropped. -/
theorem claim1_migration (c : Bool) (old : Option (List LegacyRow)) (rows : List LegacyRow) :
    initDatabase ⟨c, ⟨some (EntriesTable.legacy rows), old⟩⟩
      = ⟨true, ⟨some (EntriesTable.current (rows.map migrateRow) (maxId rows + 1)), none⟩⟩
    ∧ (rows.map migrateRow).length = rows.length
    ∧ ∀ (i : Nat) (o : LegacyRow), rows[i]? = some o →
        (rows.map migrateRow)[i]? = some (migrateRow o)
        ∧ (migrateRow o).id = o.id ∧ (migrateRow o).type = o.type
        ∧ (migrateRow o).name = o.name ∧ (migrateRow o).image_data = o.image_data
        ∧ (migrateRow o).deprecated = o.deprecated ∧ (migrateRow o).created_at = o.created_at
        ∧ (migrateRow o).launch_type = "bat" ∧ (migrateRow o).launch_data = o.bat_path := by
  refine ⟨rfl, by simp, ?_⟩
  intro i o h
  refine ⟨?_, rfl, rfl, rfl, rfl, rfl, rfl, rfl, rfl⟩
  simp [List.getElem?_map, h]

/-- Witness for C1 at a one-row legacy table. -/
theorem claim1_witness :
    initDatabase ⟨false, ⟨some (EntriesTable.legacy [sampleLegacy]), none⟩⟩
      = ⟨true, ⟨some (EntriesTable.current ([sampleLegacy].map migrateRow) (maxId [sampleLegacy] + 1)), none⟩⟩
    ∧ ([sampleLegacy].map migrateRow)[0]? = some (migrateRow sampleLegacy) :=
  ⟨(claim1_migration false none [sampleLegacy]).1,
   ((claim1_migration false none [sampleLegacy]).2.2 0 sampleLegacy rfl).1⟩

/-- C8: every store operation other than `initDatabase`, called while the
module-level handle is still null, fails with the explicit
"Database not initialized" error and returns no state. -/
theorem claim8_uninitialized (file : DbFile) (t : EntryType) (now id : Nat) (nm : String)
    (lt : LaunchType) (ld la img : String) :
    getEntries ⟨false, file⟩ t = Except.error notInitMsg
    ∧ addEntry ⟨false, file⟩ now t nm lt ld la img = Except.error notInitMsg
    ∧ deleteEntry ⟨false, file⟩ id = Except.error notInitMsg
    ∧ toggleDeprecated ⟨false, file⟩ id = Except.error notInitMsg
    ∧ updateEntry ⟨false, file⟩ id nm lt ld la img = Except.error notInitMsg :=
  ⟨rfl, rfl, rfl, rfl, rfl⟩

/-- C9 counterexample: on a store that has not been initialized (null
handle) but holds no entries, `getEntries` raises the
"Database not initialized" error instead of returning an empty
collection, refuting the claim that it never fails there. -/
theorem claim9_counterexample :
    getEntries ⟨false, ⟨some (EntriesTable.current [] 1), none⟩⟩ EntryType.game
      = Except.error notInitMsg
    ∧ Except.error notInitMsg ≠ (Except.ok [] : Except String (List Entry)) :=
  ⟨rfl, fun h => Except.noConfusion h⟩

/-- C9 (amended): on an initialized store, `getEntries` returns an empty
collection when no entries of the category exist; on an uninitialized
store it raises "Database not initialized", even when the store holds no
entries. -/
theorem claim9_empty_list (rows : List Row) (n : Nat) (old : Option (List LegacyRow))
    (t : EntryType) (h : ∀ r ∈ rows, r.type ≠ t) :
    getEntries ⟨true, ⟨some (EntriesTable.current rows n), old⟩⟩ t = Except.ok []
    ∧ ∀ file, getEntries ⟨false, file⟩ t = Except.error notInitMsg := by
  refine ⟨?_, fun file => rfl⟩
  have hf : rows.filter (fun r => decide (r.type = t)) = [] := by
    rw [List.filter_eq_nil_iff]
    intro r hr
    simpa using h r hr
  simp [getEntries, hf]

/-- Witness for C9 (amended): a store holding only a game entry lists no
apps, and an uninitialized store errors. -/
theorem claim9_witness :
    getEntries ⟨true, ⟨some (EntriesTable.current [sampleRow] 2), none⟩⟩ EntryType.app
      = Except.ok [] :=
  (claim9_empty_list [sampleRow] 2 none EntryType.app (by decide)).1

/-- C10: for an entry whose `launch_type` is none of the four handled
cases, `launchEntry` issues no OS command, schedules no deferred window
hide, and returns false. -/
theorem claim10_unknown_type (exec : List String → Except String Unit) (e : Entry)
    (h1 : e.launch_type ≠ "steam") (h2 : e.launch_type ≠ "exe")
    (h3 : e.launch_type ≠ "url") (h4 : e.launch_type ≠ "bat") :
    launchEntry exec e = { ok := false, cmds := [], hideScheduled := false } := by
  simp [launchEntry, h1, h2, h3, h4]

/-- Witness for C10 at a `gamepass` entry. -/
theorem claim10_witness :
    launchEntry execOk badEntry = { ok := false, cmds := [], hideScheduled := false } :=
  claim10_unknown_type execOk badEntry (by decide) (by decide) (by decide) (by decide)

/-- C5 counterexample: `parseArgs` does not split on every whitespace
character — a tab between tokens is kept inside a single argument, while
the claim's whitespace-splitting description yields two arguments. -/
theorem claim5_counterexample :
    parseArgs ("a\tb") = ["a\tb"]
    ∧ parseArgsWhitespace ("a\tb") = ["a", "b"]
    ∧ (["a\tb"] : List String) ≠ ["a", "b"] :=
  ⟨by decide, by decide, by decide⟩

/-- C5 (amended): for every argument string, `parseArgs` splits on the
space character (not on all whitespace) outside double quotes, toggling
an inside-quotes state per quote character seen and stripping the quotes,
and never errors (it is a total function); in particular the three listed
examples hold and an empty `launch_args` yields an empty argument list at
dispatch. -/
theorem claim5_parse_space :
    (∀ s, parseArgs s = parseArgsSpaceSpec s)
    ∧ parseArgs ("--a \"b c\" --d") = ["--a", "b c", "--d"]
    ∧ parseArgs ("") = []
    ∧ parseArgs ("--x") = ["--x"]
    ∧ exeArgList ("") = [] := by
  refine ⟨fun s => ?_, by decide, by decide, by decide, by decide⟩
  have h := parseArgsGo_eq_foldl s.data [] "" false
  simpa [parseArgs, parseArgsSpaceSpec] using h.symm

/-- A freshly inserted row is the unique hit of the post-insert SELECT by
`lastInsertId` when every pre-existing id is below the counter. -/
theorem filter_id_fresh (rows : List Row) (row : Row) (n : Nat)
    (hfresh : ∀ r ∈ rows, r.id < n) (hrow : row.id = n) :
    (rows ++ [row]).filter (fun r => decide (r.id = n)) = [row] := by
  rw [List.filter_append]
  have h1 : rows.filter (fun r => decide (r.id = n)) = [] := by
    rw [List.filter_eq_nil_iff]
    intro r hr
    simpa using Nat.ne_of_lt (hfresh r hr)
  rw [h1]
  simp [hrow]

/-- C2: on an initialized store whose ids are all below the AUTOINCREMENT
counter, `addEntry` succeeds and returns an entry carrying exactly the
passed fields together with the store-assigned id and creation time, and
`getEntries` on the same category then includes that entry. -/
theorem claim2_add_then_list (rows : List Row) (n now : Nat) (old : Option (List LegacyRow))
    (t : EntryType) (nm : String) (lt : LaunchType) (ld la img : String)
    (hfresh : ∀ r ∈ rows, r.id < n) :
    ∃ e s2,
      addEntry ⟨true, ⟨some (EntriesTable.current rows n), old⟩⟩ now t nm lt ld la img
        = Except.ok (e, s2)
      ∧ e.type = t ∧ e.name = nm ∧ e.launch_type = lt.toStr ∧ e.launch_data = ld
      ∧ e.launch_args = la ∧ e.image_data = img ∧ e.id = n ∧ e.created_at = now
      ∧ ∃ l, getEntries s2 t = Except.ok l ∧ e ∈ l := by
  have hfilter := filter_id_fresh rows ⟨n, t, nm, lt.toStr, ld, la, img, 0, now⟩ n hfresh rfl
  refine ⟨rowToEntry ⟨n, t, nm, lt.toStr, ld, la, img, 0, now⟩,
    ⟨true, ⟨some (EntriesTable.current (rows ++ [⟨n, t, nm, lt.toStr, ld, la, img, 0, now⟩]) (n + 1)), old⟩⟩,
    ?_, rfl, rfl, rfl, rfl, rfl, rfl, rfl, rfl, ⟨_, rfl, ?_⟩⟩
  · simp [addEntry, hfilter]
  · apply List.mem_map_of_mem
    rw [List.mem_mergeSort]
    refine List.mem_filter.mpr ⟨List.mem_append_right _ (List.mem_singleton.mpr rfl), by simp⟩

/-- Witness for C2: adding to a fresh empty store succeeds and the new
entry is listed. -/
theorem claim2_witness :
    ∃ e s2,
      addEntry ⟨true, ⟨some (EntriesTable.current [] 1), none⟩⟩ 5 EntryType.game
          ("Elden Ring") LaunchType.steam ("814380") ("") ("img")
        = Except.ok (e, s2)
      ∧ e.id = 1 ∧ ∃ l, getEntries s2 EntryType.game = Except.ok l ∧ e ∈ l := by
  obtain ⟨e, s2, h, _, _, _, _, _, _, hid, _, hl⟩ :=
    claim2_add_then_list [] 1 5 none EntryType.game ("Elden Ring") LaunchType.steam
      ("814380") ("") ("img") (by simp)
  exact ⟨e, s2, h, hid, hl⟩

/-- C3: `updateEntry` rewrites exactly the five mutable fields of every
row matching `id` (keeping its id, category, deprecated flag and creation
time), leaves all other rows untouched, and is an error-free no-op when
no row matches. -/
theorem claim3_update_frame (rows : List Row) (n : Nat) (old : Option (List LegacyRow))
    (id : Nat) (nm : String) (lt : LaunchType) (ld la img : String) :
    ∃ rows2,
      updateEntry ⟨true, ⟨some (EntriesTable.current rows n), old⟩⟩ id nm lt ld la img
        = Except.ok ⟨true, ⟨some (EntriesTable.current rows2 n), old⟩⟩
      ∧ rows2.length = rows.length
      ∧ (∀ (i : Nat) (r : Row), rows[i]? = some r → r.id = id →
           rows2[i]? = some { r with name := nm, launch_type := lt.toStr,
                                     launch_data := ld, launch_args := la, image_data := img })
      ∧ (∀ (i : Nat) (r : Row), rows[i]? = some r → r.id ≠ id → rows2[i]? = some r)
      ∧ ((∀ r ∈ rows, r.id ≠ id) → rows2 = rows) := by
  refine ⟨rows.map (fun r =>
      if r.id = id then
        { r with name := nm, launch_type := lt.toStr, launch_data := ld,
                 launch_args := la, image_data := img }
      else r), ?_, by simp, ?_, ?_, ?_⟩
  · rfl
  · intro i r h hid
    simp [List.getElem?_map, h, hid]
  · intro i r h hid
    simp [List.getElem?_map, h, hid]
  · intro hall
    have hcong : ∀ r ∈ rows,
        (if r.id = id then
          ({ r with name := nm, launch_type := lt.toStr, launch_data := ld,
                    launch_args := la, image_data := img } : Row)
        else r) = r := by
      intro r hr
      rw [if_neg (hall r hr)]
    simpa using List.map_congr_left hcong

/-- Witness for C3 at a one-row store whose row matches the id. -/
theorem claim3_witness :
    ∃ rows2,
      updateEntry ⟨true, ⟨some (EntriesTable.current [sampleRow] 2), none⟩⟩ 1
          ("Monster Hunter Rise") LaunchType.url ("https://example.com") ("") ("img2")
        = Except.ok ⟨true, ⟨some (EntriesTable.current rows2 2), none⟩⟩
      ∧ rows2[0]? = some { sampleRow with
                           name := "Monster Hunter Rise",
                           launch_type := LaunchType.url.toStr,
                           launch_data := "https://example.com",
                           launch_args := "", image_data := "img2" } := by
  obtain ⟨rows2, heq, _, hupd, _, _⟩ :=
    claim3_update_frame [sampleRow] 2 none 1 ("Monster Hunter Rise") LaunchType.url
      ("https://example.com") ("") ("img2")
  exact ⟨rows2, heq, hupd 0 sampleRow rfl rfl⟩

/-- C4: after `deleteEntry id`, `getEntries` on any category returns no
entry bearing that id, and deleting the same id again is an error-free
no-op. -/
theorem claim4_delete_then_list (rows : List Row) (n : Nat) (old : Option (List LegacyRow))
    (id : Nat) (t : EntryType) :
    ∃ s2,
      deleteEntry ⟨true, ⟨some (EntriesTable.current rows n), old⟩⟩ id = Except.ok s2
      ∧ (∀ l, getEntries s2 t = Except.ok l → ∀ e ∈ l, e.id ≠ id)
      ∧ deleteEntry s2 id = Except.ok s2 := by
  refine ⟨⟨true, ⟨some (EntriesTable.current (rows.filter (fun r => decide (r.id ≠ id))) n), old⟩⟩,
    rfl, ?_, ?_⟩
  · intro l hl e he
    have hX : getEntries
        ⟨true, ⟨some (EntriesTable.current (rows.filter (fun r => decide (r.id ≠ id))) n), old⟩⟩ t
        = Except.ok ((List.mergeSort
            ((rows.filter (fun r => decide (r.id ≠ id))).filter (fun r => decide (r.type = t)))
            createdDesc).map rowToEntry) := rfl
    rw [hX] at hl
    have hle := Except.ok.inj hl
    subst hle
    obtain ⟨r, hr, rfl⟩ := List.mem_map.mp he
    rw [List.mem_mergeSort] at hr
    have h1 := (List.mem_filter.mp (List.mem_filter.mp hr).1).2
    simpa [rowToEntry] using of_decide_eq_true h1
  · simp [deleteEntry, List.filter_filter]

/-- Witness for C4 at a one-row store. -/
theorem claim4_witness :
    ∃ s2,
      deleteEntry ⟨true, ⟨some (EntriesTable.current [sampleRow] 2), none⟩⟩ 1 = Except.ok s2
      ∧ deleteEntry s2 1 = Except.ok s2 := by
  obtain ⟨s2, hd, _, hi⟩ := claim4_delete_then_list [sampleRow] 2 none 1 EntryType.game
  exact ⟨s2, hd, hi⟩

/-- The command of one `command.execute()` call is recorded. -/
theorem runCommand_cmds (exec : List String → Except String Unit) (args : List String) :
    (runCommand exec args).cmds = [args] :=
  (runCommand_spec exec args).1

/-- C6: `launchEntry` never issues more than one OS command per call,
issues exactly one for each of the four handled launch types, and for a
`steam` entry that single command opens `steam://rungameid/<launch_data>`
with `launch_data` inserted literally and `launch_args` never consulted. -/
theorem claim6_single_dispatch (exec : List String → Except String Unit) (e : Entry) :
    (launchEntry exec e).cmds.length ≤ 1
    ∧ ((e.launch_type = "steam" ∨ e.launch_type = "exe" ∨ e.launch_type = "url"
        ∨ e.launch_type = "bat") → (launchEntry exec e).cmds.length = 1)
    ∧ (e.launch_type = "steam" →
        (launchEntry exec e).cmds = [["/c", "start", "steam://rungameid/" ++ e.launch_data]]
        ∧ ∀ la, launchEntry exec { e with launch_args := la } = launchEntry exec e) := by
  by_cases h1 : e.launch_type = "steam"
  · refine ⟨?_, fun _ => ?_, fun _ => ⟨?_, fun la => ?_⟩⟩
    · simp [launchEntry, h1, runCommand_cmds]
    · simp [launchEntry, h1, runCommand_cmds]
    · simp [launchEntry, h1, runCommand_cmds, steamCmdArgs]
    · simp [launchEntry, h1]
  · by_cases h2 : e.launch_type = "exe"
    · exact ⟨by simp [launchEntry, h1, h2, runCommand_cmds],
        fun _ => by simp [launchEntry, h1, h2, runCommand_cmds],
        fun hs => absurd hs h1⟩
    · by_cases h3 : e.launch_type = "url"
      · exact ⟨by simp [launchEntry, h1, h2, h3, runCommand_cmds],
          fun _ => by simp [launchEntry, h1, h2, h3, runCommand_cmds],
          fun hs => absurd hs h1⟩
      · by_cases h4 : e.launch_type = "bat"
        · exact ⟨by simp [launchEntry, h1, h2, h3, h4, runCommand_cmds],
            fun _ => by simp [launchEntry, h1, h2, h3, h4, runCommand_cmds],
            fun hs => absurd hs h1⟩
        · refine ⟨by simp [launchEntry, h1, h2, h3, h4], fun hor => ?_, fun hs => absurd hs h1⟩
          rcases hor with h | h | h | h
          exacts [absurd h h1, absurd h h2, absurd h h3, absurd h h4]

/-- Witness for C6 at the spec's `steam` scenario entry. -/
theorem claim6_witness :
    (launchEntry execOk steamEntry).cmds
      = [["/c", "start", "steam://rungameid/" ++ steamEntry.launch_data]] :=
  ((claim6_single_dispatch execOk steamEntry).2.2 rfl).1

/-- C7: for every entry dispatching to some command, `launchEntry` issues
exactly that command, returns true exactly when the OS accepted the start
request and false when the invocation raised (the error is caught at the
dispatch boundary — `launchEntry` is a total function into
`LaunchOutcome`, so nothing propagates past it), and schedules the
deferred window hide exactly on success. -/
theorem claim7_catch_boundary (exec : List String → Except String Unit) (e : Entry)
    (args : List String) (h : dispatchCmd e = some args) :
    (launchEntry exec e).cmds = [args]
    ∧ ((launchEntry exec e).ok = true ↔ exec args = Except.ok ())
    ∧ (launchEntry exec e).hideScheduled = (launchEntry exec e).ok := by
  by_cases h1 : e.launch_type = "steam"
  · have ha : steamCmdArgs e.launch_data = args := by simpa [dispatchCmd, h1] using h
    have hl : launchEntry exec e = runCommand exec args := by simp [launchEntry, h1, ha]
    rw [hl]
    exact runCommand_spec exec args
  · by_cases h2 : e.launch_type = "exe"
    · have ha : exeCmdArgs e.launch_data e.launch_args = args := by
        simpa [dispatchCmd, h1, h2] using h
      have hl : launchEntry exec e = runCommand exec args := by simp [launchEntry, h1, h2, ha]
      rw [hl]
      exact runCommand_spec exec args
    · by_cases h3 : e.launch_type = "url"
      · have ha : urlCmdArgs e.launch_data = args := by simpa [dispatchCmd, h1, h2, h3] using h
        have hl : launchEntry exec e = runCommand exec args := by
          simp [launchEntry, h1, h2, h3, ha]
        rw [hl]
        exact runCommand_spec exec args
      · by_cases h4 : e.launch_type = "bat"
        · have ha : batCmdArgs e.launch_data = args := by
            simpa [dispatchCmd, h1, h2, h3, h4] using h
          have hl : launchEntry exec e = runCommand exec args := by
            simp [launchEntry, h1, h2, h3, h4, ha]
          rw [hl]
          exact runCommand_spec exec args
        · exact absurd h (by simp [dispatchCmd, h1, h2, h3, h4])

/-- Witness for C7: a declined start request at the `steam` entry. -/
theorem claim7_witness :
    (launchEntry execFail steamEntry).cmds = [steamCmdArgs (steamEntry.launch_data)] :=
  (claim7_catch_boundary execFail steamEntry (steamCmdArgs (steamEntry.launch_data)) rfl).1
